import Mathlib

/-!
Verification of the product/favorite CRUD router
(`app/routes/product_routes.js`).

The router exposes HTTP handlers over two Mongoose collections,
`Product` and `Favorite`.  We embed the documents as association lists
of JSON-like values, the database as lists of `(id, document)` pairs,
and each route handler as a pure function from the request's parts and
the outcomes of the asynchronous database operations to a response
paired with the updated database state.  A response is either a
serialized JSON reply, a bare status code, or an error handed to the
`next` error middleware.

The helpers `handle404`, `requireOwnership` (from
`lib/custom_errors`), the `removeBlanks` middleware (from
`lib/remove_blank_fields`) and the boundary error-to-status responder
are part of the repository but not of the provided sources; they are
modelled from the specification, as marked on their doc comments.
-/

/-- JSON-like values carried in request bodies and stored documents. -/
inductive JVal where
  | null : JVal
  | str : String → JVal
  | num : Int → JVal
  | bool : Bool → JVal
  | arr : List JVal → JVal
  | obj : List (String × JVal) → JVal

/-- A document (or request payload): an association list of fields. -/
abbrev Doc := List (String × JVal)

/-- Whether a value is the empty string (the values the blank-field
stripper removes). -/
def isBlank : JVal → Bool
  | .str s => s = ""
  | _ => false

mutual

/-- Modelled from the spec: `lib/remove_blank_fields` ("Recursively
removes any key whose value is an empty string, leaving non-empty
values and non-string values untouched"); its source is not under the
provided `app/routes` sources. -/
def removeBlanks : JVal → JVal
  | .obj fs => .obj (removeBlanksFields fs)
  | v => v

/-- Field-list worker of `removeBlanks`: drops empty-string fields and
recurses into the kept values. -/
def removeBlanksFields : List (String × JVal) → List (String × JVal)
  | [] => []
  | (k, v) :: rest =>
    if isBlank v then removeBlanksFields rest
    else (k, removeBlanks v) :: removeBlanksFields rest

end

mutual

/-- No field anywhere in the value holds an empty string. -/
def noBlanks : JVal → Bool
  | .obj fs => noBlanksFields fs
  | _ => true

/-- Field-list worker of `noBlanks`. -/
def noBlanksFields : List (String × JVal) → Bool
  | [] => true
  | (_, v) :: rest => !isBlank v && noBlanks v && noBlanksFields rest

end

/-- First value stored under key `k`, as JavaScript property access
reads it. -/
def getField : Doc → String → Option JVal
  | [], _ => none
  | (k', v') :: rest, k => if k' = k then some v' else getField rest k

/-- JavaScript property assignment `d[k] = v`: overwrite the key if
present, otherwise append it. -/
def setField : Doc → String → JVal → Doc
  | [], k, v => [(k, v)]
  | (k', v') :: rest, k, v =>
    if k' = k then (k, v) :: rest else (k', v') :: setField rest k v

/-- JavaScript `delete d[k]`. -/
def removeField : Doc → String → Doc
  | [], _ => []
  | (k', v') :: rest, k =>
    if k' = k then removeField rest k else (k', v') :: removeField rest k

/-- Mongoose `doc.updateOne(patch)`: set every field of the patch on
the stored document, leaving the others alone. -/
def applyPatch (d : Doc) (p : Doc) : Doc :=
  p.foldl (fun acc q => setField acc q.1 q.2) d

/-- The error kinds a handler pipeline can raise (spec section 7),
plus the `TypeError` raised by dereferencing a missing payload key and
an unclassified database failure. -/
inductive Err where
  | notFound : Err
  | forbidden : Err
  | validation : Err
  | typeError : Err
  | dbError : Err
deriving DecidableEq, Repr

/-- What a handler does with the `res`/`next` pair: serialize a JSON
reply, send a bare status, or pass an error to the error middleware. -/
inductive Response where
  | json : Nat → JVal → Response
  | status : Nat → Response
  | nextErr : Err → Response

/-- The two collections backing the router. -/
structure DB where
  products : List (Nat × Doc)
  favorites : List (Nat × Doc)

/-- Mongoose `Model.findById(id)` over the embedded collection. -/
def lookupId : List (Nat × Doc) → Nat → Option Doc
  | [], _ => none
  | q :: rest, i => if q.1 = i then some q.2 else lookupId rest i

/-- Mongoose `doc.updateOne` result on the collection: replace the
document stored under `i`. -/
def updateById : List (Nat × Doc) → Nat → Doc → List (Nat × Doc)
  | [], _, _ => []
  | q :: rest, i, d =>
    if q.1 = i then (i, d) :: updateById rest i d else q :: updateById rest i d

/-- Mongoose `doc.deleteOne` result on the collection: remove the
document stored under `i`. -/
def deleteById : List (Nat × Doc) → Nat → List (Nat × Doc)
  | [], _ => []
  | q :: rest, i =>
    if q.1 = i then deleteById rest i else q :: deleteById rest i

/-- Modelled from the spec: `lib/custom_errors.handle404` ("accepts
the result of a by-identifier lookup ... If absent, fails with a
NotFound error ... If present, returns the resource unchanged"); its
source is not under the provided `app/routes` sources. -/
def handle404 (r : Option Doc) : Except Err Doc :=
  match r with
  | none => .error .notFound
  | some d => .ok d

/-- Modelled from the spec: `lib/custom_errors.requireOwnership` ("If
the resource's owner does not equal the requester's identity, fails
with a Forbidden error"); its source is not under the provided
`app/routes` sources.  The requester's identity is the `req.user.id`
string set by the bearer-token middleware. -/
def requireOwnership (user : String) (d : Doc) : Except Err Unit :=
  match getField d "owner" with
  | some (.str u) => if u = user then .ok () else .error .forbidden
  | _ => .error .forbidden

/-- Modelled from the spec: the boundary error responder external to
this module ("responder maps each kind to a standard HTTP status (404,
401/403, 422/400 respectively) ...; unclassified failures map to
500"). -/
def errorStatus : Err → Nat
  | .notFound => 404
  | .forbidden => 403
  | .validation => 422
  | .typeError => 500
  | .dbError => 500

/-- Lookup in the external user collection `.populate('owner')` draws
from. -/
def lookupUser : List (String × Doc) → String → Option Doc
  | [], _ => none
  | q :: rest, u => if q.1 = u then some q.2 else lookupUser rest u

/-- Mongoose `.populate('owner')`: replace the stored owner reference
by the referenced user record (or `null` when it resolves to
nothing). -/
def populateOwner (users : List (String × Doc)) (d : Doc) : Doc :=
  match getField d "owner" with
  | some (.str u) =>
    match lookupUser users u with
    | some udoc => setField d "owner" (.obj udoc)
    | none => setField d "owner" .null
  | _ => d

/-- The filter `Product.find({category: category})` applies: the
stored `category` field equals the path-provided value. -/
def hasCategory (d : Doc) (cat : String) : Bool :=
  match getField d "category" with
  | some (.str s) => s = cat
  | _ => false

/-!
Route handlers.  Each is a function of the request's parts (the
requester identity `req.user.id` set by `requireToken`, the path
parameters, and `req.body`'s resource payload) and, where a handler
reaches a database write, the outcome of that asynchronous operation
(`Except.ok` for a fulfilled promise, `Except.error e` for a
rejection), to the response and the resulting database.  A request
body whose `product`/`favorite` key is absent is embedded as `none`;
a present payload object as `some fields`.
-/

/-- GET `/products/:id`: `findById`, `.populate('owner')`,
`handle404`, then 200 with the serialized product; errors go to
`next`. -/
def getProductHandler (db : DB) (users : List (String × Doc)) (pid : Nat) :
    Response :=
  match handle404 (lookupId db.products pid) with
  | .error e => .nextErr e
  | .ok doc => .json 200 (.obj [("product", .obj (populateOwner users doc))])

/-- GET `/products/category/:category`: `find({category})`, map
`toObject`, then 200 with the product list. -/
def getProductsByCategoryHandler (db : DB) (cat : String) : Response :=
  .json 200 (.obj [("products",
    .arr ((db.products.filter (fun q => hasCategory q.2 cat)).map
      (fun q => .obj q.2)))])

/-- POST `/products` (behind `requireToken`): sets
`req.body.product.owner = req.user.id` (a `TypeError` when the
`product` key is absent), then `Product.create`; 201 with the new
record on success, the rejection to `next` otherwise.  `newId` is the
identifier the store assigns to the created document. -/
def createProductHandler (user : String) (product? : Option Doc) (db : DB)
    (createResult : Except Err Unit) (newId : Nat) : Response × DB :=
  match product? with
  | none => (.nextErr .typeError, db)
  | some p =>
    let p1 := setField p "owner" (.str user)
    match createResult with
    | .error e => (.nextErr e, db)
    | .ok _ =>
      (.json 201 (.obj [("product", .obj p1)]),
       { db with products := (newId, p1) :: db.products })

/-- PATCH `/products/:id` (behind `requireToken` and `removeBlanks`):
deletes `req.body.product.owner` (a `TypeError` when the `product` key
is absent), then `findById`, `handle404`, `requireOwnership`, and
`product.updateOne(req.body.product)` whose promise IS returned into
the chain; 204 on success, any failure to `next`. -/
def patchProductHandler (user : String) (pid : Nat) (product? : Option Doc)
    (db : DB) (updResult : Except Err Unit) : Response × DB :=
  match product?.map removeBlanksFields with
  | none => (.nextErr .typeError, db)
  | some p0 =>
    let p := removeField p0 "owner"
    match handle404 (lookupId db.products pid) with
    | .error e => (.nextErr e, db)
    | .ok doc =>
      match requireOwnership user doc with
      | .error e => (.nextErr e, db)
      | .ok _ =>
        match updResult with
        | .error e => (.nextErr e, db)
        | .ok _ =>
          (.status 204,
           { db with products := updateById db.products pid (applyPatch doc p) })

/-- DELETE `/products/:id` (behind `requireToken`): `findById`,
`handle404`, `requireOwnership`, then `product.deleteOne()` invoked as
a bare statement — its promise is NOT returned into the chain, so the
chain proceeds to `res.sendStatus(204)` whatever the deletion's
outcome, and a rejection of `deleteOne` reaches no `.catch`. -/
def deleteProductHandler (user : String) (pid : Nat) (db : DB)
    (delResult : Except Err Unit) : Response × DB :=
  match handle404 (lookupId db.products pid) with
  | .error e => (.nextErr e, db)
  | .ok doc =>
    match requireOwnership user doc with
    | .error e => (.nextErr e, db)
    | .ok _ =>
      (.status 204,
       match delResult with
       | .ok _ => { db with products := deleteById db.products pid }
       | .error _ => db)

/-- POST `/favorites` (behind `requireToken`): sets
`req.body.favorite.owner = req.user.id` (a `TypeError` when the
`favorite` key is absent), then `Favorite.create`; 201 with the new
record on success, the rejection to `next` otherwise. -/
def createFavoriteHandler (user : String) (favorite? : Option Doc) (db : DB)
    (createResult : Except Err Unit) (newId : Nat) : Response × DB :=
  match favorite? with
  | none => (.nextErr .typeError, db)
  | some f =>
    let f1 := setField f "owner" (.str user)
    match createResult with
    | .error e => (.nextErr e, db)
    | .ok _ =>
      (.json 201 (.obj [("favorite", .obj f1)]),
       { db with favorites := (newId, f1) :: db.favorites })

/-- DELETE `/favorites/:id` (behind `requireToken`): `findById`,
`handle404`, `requireOwnership`, then `favorite.deleteOne()` invoked
as a bare statement — like the product delete, its promise is NOT
returned into the chain. -/
def deleteFavoriteHandler (user : String) (fid : Nat) (db : DB)
    (delResult : Except Err Unit) : Response × DB :=
  match handle404 (lookupId db.favorites fid) with
  | .error e => (.nextErr e, db)
  | .ok doc =>
    match requireOwnership user doc with
    | .error e => (.nextErr e, db)
    | .ok _ =>
      (.status 204,
       match delResult with
       | .ok _ => { db with favorites := deleteById db.favorites fid }
       | .error _ => db)

/-! Helper lemmas about the field and collection operations. -/

theorem isBlank_removeBlanks (v : JVal) : isBlank (removeBlanks v) = isBlank v := by
  cases v <;> rfl

mutual

theorem removeBlanks_removeBlanks : ∀ v : JVal, removeBlanks (removeBlanks v) = removeBlanks v
  | .null => rfl
  | .str _ => rfl
  | .num _ => rfl
  | .bool _ => rfl
  | .arr _ => rfl
  | .obj fs => congrArg JVal.obj (removeBlanksFields_removeBlanksFields fs)

theorem removeBlanksFields_removeBlanksFields :
    ∀ fs : List (String × JVal),
      removeBlanksFields (removeBlanksFields fs) = removeBlanksFields fs
  | [] => rfl
  | (k, v) :: rest => by
    by_cases h : isBlank v = true
    · simp [removeBlanksFields, h, removeBlanksFields_removeBlanksFields rest]
    · simp [removeBlanksFields, h, isBlank_removeBlanks, removeBlanks_removeBlanks v,
        removeBlanksFields_removeBlanksFields rest]

end

mutual

theorem removeBlanks_of_noBlanks : ∀ v : JVal, noBlanks v = true → removeBlanks v = v
  | .null, _ => rfl
  | .str _, _ => rfl
  | .num _, _ => rfl
  | .bool _, _ => rfl
  | .arr _, _ => rfl
  | .obj fs, h => congrArg JVal.obj (removeBlanksFields_of_noBlanksFields fs h)

theorem removeBlanksFields_of_noBlanksFields :
    ∀ fs : List (String × JVal), noBlanksFields fs = true → removeBlanksFields fs = fs
  | [], _ => rfl
  | (k, v) :: rest, h => by
    simp [noBlanksFields] at h
    simp [removeBlanksFields, h.1.1, removeBlanks_of_noBlanks v h.1.2,
      removeBlanksFields_of_noBlanksFields rest h.2]

end

theorem getField_setField_self (d : Doc) (k : String) (v : JVal) :
    getField (setField d k v) k = some v := by
  induction d with
  | nil => simp [setField, getField]
  | cons q rest ih =>
    by_cases h : q.1 = k
    · simp [setField, getField, h]
    · simp [setField, getField, h, ih]

theorem getField_setField_ne (d : Doc) (k k' : String) (v : JVal) (h : k' ≠ k) :
    getField (setField d k' v) k = getField d k := by
  induction d with
  | nil => simp [setField, getField, h]
  | cons q rest ih =>
    by_cases hq : q.1 = k'
    · simp [setField, getField, hq, h]
    · simp [setField, getField, hq, ih]

theorem keys_removeField (d : Doc) (k : String) :
    ∀ q ∈ removeField d k, q.1 ≠ k := by
  induction d with
  | nil => simp [removeField]
  | cons p rest ih =>
    by_cases h : p.1 = k
    · simpa [removeField, h] using ih
    · intro q hq
      rcases (by simpa [removeField, h] using hq) with hq | hq
      · simpa [hq] using h
      · exact ih q hq

theorem getField_applyPatch (d : Doc) (p : Doc) (k : String)
    (h : ∀ q ∈ p, q.1 ≠ k) : getField (applyPatch d p) k = getField d k := by
  induction p generalizing d with
  | nil => rfl
  | cons q rest ih =>
    have hq : q.1 ≠ k := h q (by simp)
    have hrest : ∀ q ∈ rest, q.1 ≠ k := fun q hq => h q (by simp [hq])
    calc getField (applyPatch (setField d q.1 q.2) rest) k
        = getField (setField d q.1 q.2) k := ih (setField d q.1 q.2) hrest
      _ = getField d k := getField_setField_ne d k q.1 q.2 hq

theorem lookupId_updateById (xs : List (Nat × Doc)) (i : Nat) (d : Doc) :
    lookupId (updateById xs i d) i = (lookupId xs i).map (fun _ => d) := by
  induction xs with
  | nil => rfl
  | cons q rest ih =>
    by_cases h : q.1 = i
    · simp [updateById, lookupId, h]
    · simp [updateById, lookupId, h, ih]

theorem requireOwnership_ok (user : String) (d : Doc)
    (h : getField d "owner" = some (.str user)) :
    requireOwnership user d = .ok () := by
  simp [requireOwnership, h]

theorem requireOwnership_error (user : String) (d : Doc)
    (h : getField d "owner" ≠ some (.str user)) :
    requireOwnership user d = .error .forbidden := by
  unfold requireOwnership
  rcases hg : getField d "owner" with _ | v
  · rfl
  · rw [hg] at h
    rcases v with _ | u | n | b | xs | fs
    · rfl
    · simp at h
      simp [h]
    · rfl
    · rfl
    · rfl
    · rfl

theorem hasCategory_iff (d : Doc) (cat : String) :
    hasCategory d cat = true ↔ getField d "category" = some (.str cat) := by
  unfold hasCategory
  rcases hg : getField d "category" with _ | v
  · simp
  · rcases v with _ | s | n | b | xs | fs <;> simp

/-- C8: the blank-field stripper sends `{title:'', text:'foo'}` to
`{text:'foo'}`, leaves any payload with no empty-string values
unchanged, and stripping twice equals stripping once. -/
theorem c8_blank_field_stripper :
    removeBlanks (.obj [("title", .str ""), ("text", .str "foo")])
        = .obj [("text", .str "foo")]
    ∧ (∀ v : JVal, noBlanks v = true → removeBlanks v = v)
    ∧ (∀ v : JVal, removeBlanks (removeBlanks v) = removeBlanks v) :=
  ⟨rfl, removeBlanks_of_noBlanks, removeBlanks_removeBlanks⟩

theorem c8_blank_field_stripper_witness :
    noBlanks (.obj [("text", .str "foo")]) = true
    ∧ removeBlanks (.obj [("text", .str "foo")]) = .obj [("text", .str "foo")] :=
  ⟨rfl, c8_blank_field_stripper.2.1 _ rfl⟩

/-- C1: POST `/products` and POST `/favorites` store the created
record with `owner` equal to the requester's identity, whatever owner
value the payload carried. -/
theorem c1_create_forces_owner (user : String) (p f : Doc) (db : DB)
    (pid fid : Nat) :
    (∃ d : Doc,
      ((createProductHandler user (some p) db (.ok ()) pid).2).products
          = (pid, d) :: db.products
      ∧ getField d "owner" = some (.str user))
    ∧ (∃ d : Doc,
      ((createFavoriteHandler user (some f) db (.ok ()) fid).2).favorites
          = (fid, d) :: db.favorites
      ∧ getField d "owner" = some (.str user)) :=
  ⟨⟨setField p "owner" (.str user), rfl, getField_setField_self p "owner" _⟩,
   ⟨setField f "owner" (.str user), rfl, getField_setField_self f "owner" _⟩⟩

/-- C10: when the JSON body lacks the `product` (resp. `favorite`)
key, POST `/products`, PATCH `/products/:id` and POST `/favorites`
raise a `TypeError` dereferencing it, and the database is untouched
whatever the write outcome would have been. -/
theorem c10_missing_payload_key (user : String) (pid newId : Nat) (db : DB)
    (r : Except Err Unit) :
    createProductHandler user none db r newId = (.nextErr .typeError, db)
    ∧ patchProductHandler user pid none db r = (.nextErr .typeError, db)
    ∧ createFavoriteHandler user none db r newId = (.nextErr .typeError, db) :=
  ⟨rfl, rfl, rfl⟩

/-- C4: the stated failure policy does not hold of the delete
handlers: at this concrete request the `deleteOne` promise rejects,
yet the handler responds 204 and forwards nothing to `next` — the
bare `deleteOne()` statement's rejection escapes the chain. -/
theorem c4_delete_rejection_not_forwarded :
    deleteProductHandler "U1" 0 ⟨[(0, [("owner", .str "U1")])], []⟩
        (.error .dbError)
      = (.status 204, ⟨[(0, [("owner", .str "U1")])], []⟩)
    ∧ deleteFavoriteHandler "U1" 0 ⟨[], [(0, [("owner", .str "U1")])]⟩
        (.error .dbError)
      = (.status 204, ⟨[], [(0, [("owner", .str "U1")])]⟩) :=
  ⟨rfl, rfl⟩

/-- C2: a PATCH `/products/:id` request never changes the stored
product's owner field, whether or not the payload carries an `owner`
key and whatever its value. -/
theorem c2_patch_preserves_owner (user : String) (pid : Nat)
    (product? : Option Doc) (db : DB) (r : Except Err Unit) :
    (lookupId ((patchProductHandler user pid product? db r).2).products pid).map
        (fun d => getField d "owner")
      = (lookupId db.products pid).map (fun d => getField d "owner") := by
  rcases product? with _ | p
  · rfl
  · rcases hl : lookupId db.products pid with _ | doc
    · simp [patchProductHandler, handle404, hl]
    · rcases ho : requireOwnership user doc with e | u
      · simp [patchProductHandler, handle404, hl, ho]
      · rcases r with e | u2
        · simp [patchProductHandler, handle404, hl, ho]
        · simp only [patchProductHandler, handle404, hl, ho, Option.map_some']
          rw [lookupId_updateById, hl]
          simp [getField_applyPatch _ _ _ (keys_removeField _ "owner")]

/-- C3 as stated fails: a PATCH by a non-owner whose body lacks the
`product` key raises the `TypeError` dereferencing it, not a
Forbidden failure. -/
theorem c3_counterexample :
    (patchProductHandler "U2" 0 none ⟨[(0, [("owner", JVal.str "U1")])], []⟩
        (.ok ())).1 ≠ .nextErr .forbidden := by
  intro h
  simp [patchProductHandler] at h

/-- C3 (amended): a PATCH whose payload contains the `product` key,
and any DELETE (whose payload is ignored), issued by a non-owner
against an existing resource, fails with Forbidden and leaves the
database unchanged. -/
theorem c3_nonowner_forbidden (user : String) (pid fid : Nat)
    (p pdoc fdoc : Doc) (db : DB) (r rdp rdf : Except Err Unit)
    (hp : lookupId db.products pid = some pdoc)
    (hpo : getField pdoc "owner" ≠ some (.str user))
    (hf : lookupId db.favorites fid = some fdoc)
    (hfo : getField fdoc "owner" ≠ some (.str user)) :
    patchProductHandler user pid (some p) db r = (.nextErr .forbidden, db)
    ∧ deleteProductHandler user pid db rdp = (.nextErr .forbidden, db)
    ∧ deleteFavoriteHandler user fid db rdf = (.nextErr .forbidden, db) := by
  refine ⟨?_, ?_, ?_⟩
  · simp [patchProductHandler, handle404, hp, requireOwnership_error user pdoc hpo]
  · simp [deleteProductHandler, handle404, hp, requireOwnership_error user pdoc hpo]
  · simp [deleteFavoriteHandler, handle404, hf, requireOwnership_error user fdoc hfo]

theorem c3_nonowner_forbidden_witness :
    patchProductHandler "U2" 0 (some [("title", JVal.str "x")])
        ⟨[(0, [("owner", JVal.str "U1")])], [(1, [("owner", JVal.str "U1")])]⟩
        (.ok ())
      = (.nextErr .forbidden,
         ⟨[(0, [("owner", JVal.str "U1")])], [(1, [("owner", JVal.str "U1")])]⟩)
    ∧ deleteProductHandler "U2" 0
        ⟨[(0, [("owner", JVal.str "U1")])], [(1, [("owner", JVal.str "U1")])]⟩
        (.ok ())
      = (.nextErr .forbidden,
         ⟨[(0, [("owner", JVal.str "U1")])], [(1, [("owner", JVal.str "U1")])]⟩)
    ∧ deleteFavoriteHandler "U2" 1
        ⟨[(0, [("owner", JVal.str "U1")])], [(1, [("owner", JVal.str "U1")])]⟩
        (.ok ())
      = (.nextErr .forbidden,
         ⟨[(0, [("owner", JVal.str "U1")])], [(1, [("owner", JVal.str "U1")])]⟩) :=
  c3_nonowner_forbidden "U2" 0 1 [("title", JVal.str "x")] _ _ _
    (.ok ()) (.ok ()) (.ok ()) rfl (by simp [getField]) rfl (by simp [getField])

/-- C5: GET `/products/:id` answers 200 with the stored product's
fields, owner reference expanded, when the id is stored, and fails
with NotFound when it is not. -/
theorem c5_show_product (db : DB) (users : List (String × Doc)) (pid : Nat) :
    (∀ doc : Doc, lookupId db.products pid = some doc →
      getProductHandler db users pid
        = .json 200 (.obj [("product", .obj (populateOwner users doc))]))
    ∧ (lookupId db.products pid = none →
      getProductHandler db users pid = .nextErr .notFound) := by
  constructor
  · intro doc h
    simp [getProductHandler, handle404, h]
  · intro h
    simp [getProductHandler, handle404, h]

theorem c5_show_product_witness :
    getProductHandler
        ⟨[(0, [("owner", JVal.str "U1"), ("category", JVal.str "tools")])], []⟩
        [("U1", [("name", JVal.str "Ann")])] 0
      = .json 200 (.obj [("product", .obj (populateOwner
          [("U1", [("name", JVal.str "Ann")])]
          [("owner", JVal.str "U1"), ("category", JVal.str "tools")]))])
    ∧ getProductHandler
        ⟨[(0, [("owner", JVal.str "U1"), ("category", JVal.str "tools")])], []⟩
        [("U1", [("name", JVal.str "Ann")])] 1
      = .nextErr .notFound :=
  ⟨(c5_show_product _ _ 0).1 _ rfl, (c5_show_product _ _ 1).2 rfl⟩

/-- C6: an authenticated DELETE `/favorites/:id` whose id matches no
stored favorite — for example one already deleted — fails with
NotFound, which the boundary responder maps to 404. -/
theorem c6_delete_favorite_notfound (user : String) (fid : Nat) (db : DB)
    (r : Except Err Unit) (h : lookupId db.favorites fid = none) :
    deleteFavoriteHandler user fid db r = (.nextErr .notFound, db)
    ∧ errorStatus .notFound = 404 := by
  refine ⟨?_, rfl⟩
  simp [deleteFavoriteHandler, handle404, h]

theorem c6_delete_favorite_notfound_witness :
    deleteFavoriteHandler "U1" 0
        ((deleteFavoriteHandler "U1" 0 ⟨[], [(0, [("owner", JVal.str "U1")])]⟩
          (.ok ())).2) (.ok ())
      = (.nextErr .notFound,
         (deleteFavoriteHandler "U1" 0 ⟨[], [(0, [("owner", JVal.str "U1")])]⟩
          (.ok ())).2)
    ∧ errorStatus .notFound = 404 :=
  c6_delete_favorite_notfound "U1" 0 _ (.ok ()) rfl

/-- C7: GET `/products/category/:category` answers 200 with exactly
the stored products whose `category` field equals the path value, and
no others. -/
theorem c7_products_by_category (db : DB) (cat : String) :
    getProductsByCategoryHandler db cat
      = .json 200 (.obj [("products",
          .arr ((db.products.filter (fun q => hasCategory q.2 cat)).map
            (fun q => .obj q.2)))])
    ∧ ∀ v : JVal,
        v ∈ (db.products.filter (fun q => hasCategory q.2 cat)).map
              (fun q => .obj q.2)
          ↔ ∃ i d, (i, d) ∈ db.products
              ∧ getField d "category" = some (.str cat) ∧ v = .obj d := by
  refine ⟨rfl, fun v => ?_⟩
  simp only [List.mem_map, List.mem_filter]
  constructor
  · rintro ⟨⟨i, d⟩, ⟨hmem, hcat⟩, hv⟩
    exact ⟨i, d, hmem, (hasCategory_iff d cat).mp hcat, hv.symm⟩
  · rintro ⟨i, d, hmem, hcat, hv⟩
    exact ⟨⟨i, d⟩, ⟨hmem, (hasCategory_iff d cat).mpr hcat⟩, hv.symm⟩

/-- C9: once lookup and ownership succeed, the delete handlers
respond 204 whatever the outcome of the un-returned `deleteOne`
promise; its rejection is never passed to the error responder. -/
theorem c9_delete_always_204 (user : String) (pid fid : Nat) (db : DB)
    (pdoc fdoc : Doc)
    (hp : lookupId db.products pid = some pdoc)
    (hpo : getField pdoc "owner" = some (.str user))
    (hf : lookupId db.favorites fid = some fdoc)
    (hfo : getField fdoc "owner" = some (.str user)) :
    (∀ r : Except Err Unit, (deleteProductHandler user pid db r).1 = .status 204)
    ∧ (∀ r : Except Err Unit,
        (deleteFavoriteHandler user fid db r).1 = .status 204) := by
  constructor
  · intro r
    simp [deleteProductHandler, handle404, hp, requireOwnership_ok user pdoc hpo]
  · intro r
    simp [deleteFavoriteHandler, handle404, hf, requireOwnership_ok user fdoc hfo]

theorem c9_delete_always_204_witness :
    (deleteProductHandler "U1" 0
        ⟨[(0, [("owner", JVal.str "U1")])], [(0, [("owner", JVal.str "U1")])]⟩
        (.error .dbError)).1 = .status 204
    ∧ (deleteFavoriteHandler "U1" 0
        ⟨[(0, [("owner", JVal.str "U1")])], [(0, [("owner", JVal.str "U1")])]⟩
        (.error .dbError)).1 = .status 204 :=
  ⟨(c9_delete_always_204 "U1" 0 0
      ⟨[(0, [("owner", JVal.str "U1")])], [(0, [("owner", JVal.str "U1")])]⟩
      [("owner", JVal.str "U1")] [("owner", JVal.str "U1")]
      rfl rfl rfl rfl).1 _,
   (c9_delete_always_204 "U1" 0 0
      ⟨[(0, [("owner", JVal.str "U1")])], [(0, [("owner", JVal.str "U1")])]⟩
      [("owner", JVal.str "U1")] [("owner", JVal.str "U1")]
      rfl rfl rfl rfl).2 _⟩
